import Mathlib

/-!
Verification of the reqwest DNS resolver adapter (`src/dns/hickory.rs` and
`src/dns/trust_dns.rs`) against its natural-language specification.

The two Rust modules are shallowly embedded:

* Machine-level external types that the adapter treats as data
  (`IpAddr`, `SocketAddr`, `ResolverConfig`, `ResolverOpts`,
  `TokioAsyncResolver`) become plain Lean structures.
* The async lookup performed by the underlying engine is an oracle
  parameter `lookup : TokioAsyncResolver → String → Except EngineError (List IpAddr)`;
  reading the OS resolver settings is an oracle
  `Except String (ResolverConfig × ResolverOpts)`.
* The shared `Arc<OnceCell<TokioAsyncResolver>>` is modelled by a heap
  `Cells : Nat → Option TokioAsyncResolver` indexed by the identity of the
  `Arc` allocation; `get_or_try_init` is explicit state passing, following
  the documented semantics of `once_cell::sync::OnceCell::get_or_try_init`
  (on success the value is stored; if the initializer fails the error is
  returned and the cell remains uninitialized).
* The probabilistic slow-lookup log in `hickory.rs` is made explicit: the
  outcome of `rand::random::<f32>() < 0.01` is a `Bool` parameter, the
  measured wall-clock duration a `Nat` parameter, and the emitted log lines
  an extra output component.
* Applications of the filter predicate during `resolve` itself (the
  `lookup.iter().any(filter)` pass) are traced in an extra output component
  so that "the filter is never evaluated" is a provable statement.
-/

/-- IP address, modelling `std::net::IpAddr` as far as the adapter inspects
it (the adapter only passes addresses to the filter predicate and wraps them
into socket addresses, so octet-level structure suffices). -/
inductive IpAddr where
  | v4 (a b c d : Nat)
  | v6 (segments : List Nat)
  deriving DecidableEq, Repr

/-- Socket address, modelling `std::net::SocketAddr` as an IP plus a port. -/
structure SocketAddr where
  ip : IpAddr
  port : Nat
  deriving DecidableEq, Repr

/-- Models `SocketAddr::new(ip, port)`. -/
def SocketAddr.new (ip : IpAddr) (port : Nat) : SocketAddr :=
  ⟨ip, port⟩

/-- Resolver configuration (`hickory_resolver::config::ResolverConfig` /
`trust_dns_resolver::config::ResolverConfig`).  The adapter never inspects
it — it is only forwarded to the engine constructor — so it is kept as a
tagged record. -/
structure ResolverConfig where
  tag : Nat
  deriving DecidableEq, Repr

/-- IP address family lookup strategy
(`hickory_resolver::config::LookupIpStrategy`). -/
inductive LookupIpStrategy where
  | ipv4Only
  | ipv6Only
  | ipv4AndIpv6
  | ipv6thenIpv4
  | ipv4thenIpv6
  deriving DecidableEq, Repr

/-- Resolver options (`hickory_resolver::config::ResolverOpts`), restricted
to a representative set of fields.  The only field the adapter ever writes is
`cache_size` (`opts.cache_size = 500_000` in `hickory.rs`); the remaining
fields stand for every other option and must travel through unchanged. -/
structure ResolverOpts where
  ndots : Nat
  timeout : Nat
  attempts : Nat
  ip_strategy : LookupIpStrategy
  cache_size : Nat
  use_hosts_file : Bool
  num_concurrent_reqs : Nat
  deriving DecidableEq, Repr

/-- The constructed underlying resolution engine
(`hickory_resolver::TokioAsyncResolver`), holding the configuration it was
built from.  Its query behaviour is an oracle parameter of `resolve`. -/
structure TokioAsyncResolver where
  config : ResolverConfig
  opts : ResolverOpts
  deriving DecidableEq, Repr

/-- Models `TokioAsyncResolver::tokio(config, opts)`: engine construction never
fails once configuration is in hand. -/
def TokioAsyncResolver.tokio (config : ResolverConfig) (opts : ResolverOpts) :
    TokioAsyncResolver :=
  ⟨config, opts⟩

/-- An error produced by the underlying engine's `lookup_ip` query
(transport failure, malformed response, timeout, NXDOMAIN).  The adapter
never constructs or inspects these values; it only propagates them. -/
inductive EngineError where
  | noRecordsFound (query : String)
  | timeout
  | proto (msg : String)
  | ioError (msg : String)
  deriving DecidableEq, Repr

/-- The error type of `resolve`, as the caller observes it:
either the `io::Error` produced when reading the system configuration fails,
or a propagated engine lookup error, or the `destination is restricted`
policy error that the adapter itself synthesizes
(`ResolveError::from("destination is restricted")`). -/
inductive ResolveError where
  | configError (msg : String)
  | engineError (e : EngineError)
  | restricted
  deriving DecidableEq, Repr

/-- The raw address iterator of one lookup (`LookupIpIntoIter`): the
addresses the engine produced, in the engine's order. -/
abbrev LookupIpIntoIter := List IpAddr

/-- The filtered socket-address iterator `SocketAddrs` defined identically
in `hickory.rs` and `trust_dns.rs`: a raw iterator plus the filter
predicate. -/
structure SocketAddrs where
  iter : LookupIpIntoIter
  filter : IpAddr → Bool

/-- Models `<SocketAddrs as Iterator>::next`: pull raw addresses until one passes
the filter, wrap it with port 0, or stop when the raw iterator stops
(`hickory.rs` lines 95–102, identical in `trust_dns.rs`). -/
def SocketAddrs.next : SocketAddrs → Option (SocketAddr × SocketAddrs)
  | ⟨[], _⟩ => none
  | ⟨ipAddr :: rest, filter⟩ =>
    if filter ipAddr then
      some (SocketAddr.new ipAddr 0, ⟨rest, filter⟩)
    else
      SocketAddrs.next ⟨rest, filter⟩

/-- Draining the iterator: the full list of socket addresses obtained by
repeatedly calling `next` until it returns `none` (shown equal to that
unfolding in `SocketAddrs.drain_next_unfold` below). -/
def SocketAddrs.drain : SocketAddrs → List SocketAddr
  | ⟨[], _⟩ => []
  | ⟨ipAddr :: rest, filter⟩ =>
    if filter ipAddr then
      SocketAddr.new ipAddr 0 :: SocketAddrs.drain ⟨rest, filter⟩
    else
      SocketAddrs.drain ⟨rest, filter⟩

/-- The heap of shared `Arc<OnceCell<TokioAsyncResolver>>` allocations:
cell identity (the `Arc` pointer) maps to the cell's contents. -/
abbrev Cells := Nat → Option TokioAsyncResolver

/-- Write a single cell of the heap. -/
def updateCells (cells : Cells) (id : Nat) (v : Option TokioAsyncResolver) :
    Cells :=
  fun n => if n = id then v else cells n

/-- Models `OnceCell::get_or_try_init`, following the documented semantics of
`once_cell::sync::OnceCell`: if the cell is full return its contents; if it
is empty run the initializer, store and return a successful value, and on
failure return the error while the cell remains uninitialized (no
poisoning).  Returns the result together with the cell's new contents. -/
def getOrTryInit (cell : Option TokioAsyncResolver)
    (f : Unit → Except String TokioAsyncResolver) :
    Except String TokioAsyncResolver × Option TokioAsyncResolver :=
  match cell with
  | some v => (.ok v, some v)
  | none =>
    match f () with
    | .ok v => (.ok v, some v)
    | .error e => (.error e, none)

/-- Rust's short-circuiting `Iterator::any`, instrumented with the list of
elements the predicate was applied to (models `lookup.iter().any(filter)`;
the trace component witnesses which addresses the filter predicate was
evaluated on). -/
def anyTrace (filter : IpAddr → Bool) : List IpAddr → Bool × List IpAddr
  | [] => (false, [])
  | ipAddr :: rest =>
    if filter ipAddr then
      (true, [ipAddr])
    else
      ((anyTrace filter rest).1, ipAddr :: (anyTrace filter rest).2)

/-- The log line emitted for a sampled slow lookup
(`log::warn!("DNS lookup for {} took {:?}", name.as_str(), start.elapsed())`). -/
def slowLookupLine (name : String) (elapsed : Nat) : String :=
  "DNS lookup for " ++ name ++ " took " ++ toString elapsed

namespace Hickory

/-- The handle `HickoryDnsResolver` (`hickory.rs` lines 16–24): the shared lazy state
cell (identified by the `Arc` allocation it points to), the filter function
pointer, and the optional explicit configuration. -/
structure HickoryDnsResolver where
  state : Nat
  filter : IpAddr → Bool
  config : Option (ResolverConfig × ResolverOpts)

/-- Models `HickoryDnsResolver::new(filter)`: fresh state cell (allocated at the
given fresh heap identity), stored filter, no explicit configuration. -/
def HickoryDnsResolver.new (filter : IpAddr → Bool) (freshCell : Nat) :
    HickoryDnsResolver :=
  ⟨freshCell, filter, none⟩

/-- Models `HickoryDnsResolver::with_config(self, config, opts)` (`hickory.rs`
lines 40–43): overwrite the `config` field, return the modified handle. -/
def HickoryDnsResolver.with_config (r : HickoryDnsResolver)
    (config : ResolverConfig) (opts : ResolverOpts) : HickoryDnsResolver :=
  { r with config := some (config, opts) }

/-- Models `HickoryDnsResolver::new_resolver` (`hickory.rs` lines 45–58): take the
explicit `(config, opts)` if present, otherwise read the system
configuration (oracle `sysConf`; on failure produce the tagged `io::Error`
message), then overwrite `opts.cache_size` with `500_000` and build the
engine. -/
def new_resolver (r : HickoryDnsResolver)
    (sysConf : Except String (ResolverConfig × ResolverOpts)) :
    Except String TokioAsyncResolver :=
  match
    (match r.config with
     | some (config, opts) => Except.ok (config, opts)
     | none =>
       match sysConf with
       | .ok co => Except.ok co
       | .error e => Except.error ("error reading DNS system conf: " ++ e))
  with
  | .error e => .error e
  | .ok (config, opts) =>
    .ok (TokioAsyncResolver.tokio config { opts with cache_size := 500000 })

/-- The outcome of one `resolve` call: the returned result, the new contents
of the shared cell heap, the emitted log lines, and the trace of addresses
the filter predicate was evaluated on during the call. -/
structure ResolveOut where
  result : Except ResolveError SocketAddrs
  cells : Cells
  logs : List String
  filterTrace : List IpAddr

/-- Models `<HickoryDnsResolver as Resolve>::resolve` (`hickory.rs` lines 62–89):
initialize the engine through the shared cell if needed (`?` on failure),
issue the lookup (oracle `lookup`; `?` on failure), possibly log a sampled
slow lookup (`sample` is the outcome of `rand::random::<f32>() < 0.01`,
`elapsed` the measured duration), fail with the restricted-destination
error when no address passes the filter, and otherwise return the
`SocketAddrs` iterator over the raw result. -/
def resolve (r : HickoryDnsResolver) (cells : Cells)
    (sysConf : Except String (ResolverConfig × ResolverOpts))
    (lookup : TokioAsyncResolver → String → Except EngineError (List IpAddr))
    (name : String) (sample : Bool) (elapsed : Nat) : ResolveOut :=
  match getOrTryInit (cells r.state) (fun _ => new_resolver r sysConf) with
  | (.error e, cell) =>
    ⟨.error (.configError e), updateCells cells r.state cell, [], []⟩
  | (.ok engine, cell) =>
    match lookup engine name with
    | .error e =>
      ⟨.error (.engineError e), updateCells cells r.state cell, [], []⟩
    | .ok ips =>
      ⟨if (anyTrace r.filter ips).1 then
         .ok ⟨ips, r.filter⟩
       else
         .error .restricted,
       updateCells cells r.state cell,
       if sample then [slowLookupLine name elapsed] else [],
       (anyTrace r.filter ips).2⟩

end Hickory

namespace TrustDns

/-- The handle `TrustDnsResolver` (`trust_dns.rs` lines 16–22): the shared lazy state
cell and the filter function pointer (no explicit configuration support in
this variant). -/
structure TrustDnsResolver where
  state : Nat
  filter : IpAddr → Bool

/-- Models `TrustDnsResolver::new(filter)`. -/
def TrustDnsResolver.new (filter : IpAddr → Bool) (freshCell : Nat) :
    TrustDnsResolver :=
  ⟨freshCell, filter⟩

/-- Models `new_resolver` (`trust_dns.rs` lines 75–83): read the system
configuration and build the engine from it unchanged. -/
def new_resolver
    (sysConf : Except String (ResolverConfig × ResolverOpts)) :
    Except String TokioAsyncResolver :=
  match sysConf with
  | .error e => .error ("error reading DNS system conf: " ++ e)
  | .ok (config, opts) => .ok (TokioAsyncResolver.tokio config opts)

/-- The outcome of one `resolve` call in the trust_dns variant (this
variant emits no logs). -/
structure ResolveOut where
  result : Except ResolveError SocketAddrs
  cells : Cells
  filterTrace : List IpAddr

/-- Models `<TrustDnsResolver as Resolve>::resolve` (`trust_dns.rs` lines 38–57). -/
def resolve (r : TrustDnsResolver) (cells : Cells)
    (sysConf : Except String (ResolverConfig × ResolverOpts))
    (lookup : TokioAsyncResolver → String → Except EngineError (List IpAddr))
    (name : String) : ResolveOut :=
  match getOrTryInit (cells r.state) (fun _ => new_resolver sysConf) with
  | (.error e, cell) =>
    ⟨.error (.configError e), updateCells cells r.state cell, []⟩
  | (.ok engine, cell) =>
    match lookup engine name with
    | .error e =>
      ⟨.error (.engineError e), updateCells cells r.state cell, []⟩
    | .ok ips =>
      ⟨if (anyTrace r.filter ips).1 then
         .ok ⟨ips, r.filter⟩
       else
         .error .restricted,
       updateCells cells r.state cell,
       (anyTrace r.filter ips).2⟩

end TrustDns

/-!
Concrete test fixtures, used by the closed witness theorems below.  They
mirror the spec's scenario "filter = reject loopback; hostname resolves to
`[127.0.0.1, 93.184.216.34]`".
-/

/-- A reject-loopback filter predicate (concrete instance of the
caller-supplied `fn(IpAddr) -> bool`). -/
def rejectLoopback : IpAddr → Bool := fun ip =>
  match ip with
  | .v4 127 _ _ _ => false
  | _ => true

/-- A concrete set of resolver options, with a deliberately small cache and
an IPv4-only strategy. -/
def sampleOpts : ResolverOpts :=
  ⟨1, 5, 2, .ipv4Only, 32, true, 2⟩

/-- A concrete resolver configuration. -/
def sampleConfig : ResolverConfig :=
  ⟨0⟩

/-- A concrete constructed engine. -/
def sampleEngine : TokioAsyncResolver :=
  ⟨sampleConfig, sampleOpts⟩

/-- The loopback address `127.0.0.1`. -/
def loopbackIp : IpAddr := .v4 127 0 0 1

/-- The public address `93.184.216.34`. -/
def publicIp : IpAddr := .v4 93 184 216 34

theorem anyTrace_fst (filter : IpAddr → Bool) (l : List IpAddr) :
    (anyTrace filter l).1 = l.any filter := by
  induction l with
  | nil => rfl
  | cons ip rest ih =>
    by_cases h : filter ip <;> simp [anyTrace, h, ih]

theorem SocketAddrs.drain_eq (l : List IpAddr) (filter : IpAddr → Bool) :
    SocketAddrs.drain ⟨l, filter⟩
      = (l.filter filter).map (fun ip => SocketAddr.new ip 0) := by
  induction l with
  | nil => simp [SocketAddrs.drain]
  | cons ip rest ih =>
    by_cases h : filter ip <;>
      simp [SocketAddrs.drain, h, ih, List.filter_cons]

/-- Draining agrees with iterating `next`: the structural `drain` above is
exactly "call `next` until it returns `none`, collecting the yields". -/
theorem SocketAddrs.drain_next_unfold (s : SocketAddrs) :
    s.drain = (match s.next with
               | none => []
               | some (a, s') => a :: s'.drain) := by
  obtain ⟨l, filter⟩ := s
  induction l with
  | nil => simp [SocketAddrs.drain, SocketAddrs.next]
  | cons ip rest ih =>
    by_cases h : filter ip
    · simp [SocketAddrs.drain, SocketAddrs.next, h]
    · simpa [SocketAddrs.drain, SocketAddrs.next, h] using ih

/-- C1: for every hostname whose lookup returns an address list in which at
least one address satisfies the filter predicate, `resolve` succeeds and the
returned sequence yields exactly the filter-satisfying addresses, in the
order the underlying engine produced them, each wrapped as a `SocketAddr`
whose port is 0 — in both the hickory and the trust_dns variants. -/
theorem c1_resolve_success_yields_filtered_in_order :
    (∀ (r : Hickory.HickoryDnsResolver) (cells : Cells)
       (sysConf : Except String (ResolverConfig × ResolverOpts))
       (lookup : TokioAsyncResolver → String → Except EngineError (List IpAddr))
       (name : String) (sample : Bool) (elapsed : Nat)
       (engine : TokioAsyncResolver) (cell : Option TokioAsyncResolver)
       (ips : List IpAddr),
       getOrTryInit (cells r.state) (fun _ => Hickory.new_resolver r sysConf)
         = (.ok engine, cell) →
       lookup engine name = .ok ips →
       ips.any r.filter = true →
       (Hickory.resolve r cells sysConf lookup name sample elapsed).result
           = .ok ⟨ips, r.filter⟩ ∧
       SocketAddrs.drain ⟨ips, r.filter⟩
           = (ips.filter r.filter).map (fun ip => SocketAddr.new ip 0)) ∧
    (∀ (r : TrustDns.TrustDnsResolver) (cells : Cells)
       (sysConf : Except String (ResolverConfig × ResolverOpts))
       (lookup : TokioAsyncResolver → String → Except EngineError (List IpAddr))
       (name : String)
       (engine : TokioAsyncResolver) (cell : Option TokioAsyncResolver)
       (ips : List IpAddr),
       getOrTryInit (cells r.state) (fun _ => TrustDns.new_resolver sysConf)
         = (.ok engine, cell) →
       lookup engine name = .ok ips →
       ips.any r.filter = true →
       (TrustDns.resolve r cells sysConf lookup name).result
           = .ok ⟨ips, r.filter⟩ ∧
       SocketAddrs.drain ⟨ips, r.filter⟩
           = (ips.filter r.filter).map (fun ip => SocketAddr.new ip 0)) := by
  constructor
  · intro r cells sysConf lookup name sample elapsed engine cell ips
      hinit hlook hany
    refine ⟨?_, SocketAddrs.drain_eq ips r.filter⟩
    simp only [Hickory.resolve, hinit, hlook, anyTrace_fst, hany, if_true]
  · intro r cells sysConf lookup name engine cell ips hinit hlook hany
    refine ⟨?_, SocketAddrs.drain_eq ips r.filter⟩
    simp only [TrustDns.resolve, hinit, hlook, anyTrace_fst, hany, if_true]

/-- Witness for C1, at the spec's scenario: filter rejects loopback, the
engine produced `[127.0.0.1, 93.184.216.34]`, and the sequence yields
exactly `[93.184.216.34:0]`. -/
theorem c1_witness :
    (Hickory.resolve ⟨0, rejectLoopback, none⟩ (fun _ => some sampleEngine)
        (.ok (sampleConfig, sampleOpts)) (fun _ _ => .ok [loopbackIp, publicIp])
        "example.com" false 0).result
      = .ok ⟨[loopbackIp, publicIp], rejectLoopback⟩ ∧
    SocketAddrs.drain ⟨[loopbackIp, publicIp], rejectLoopback⟩
      = [SocketAddr.new publicIp 0] := by
  have h := c1_resolve_success_yields_filtered_in_order.1
    ⟨0, rejectLoopback, none⟩ (fun _ => some sampleEngine)
    (.ok (sampleConfig, sampleOpts)) (fun _ _ => .ok [loopbackIp, publicIp])
    "example.com" false 0 sampleEngine (some sampleEngine)
    [loopbackIp, publicIp] rfl rfl (by decide)
  exact ⟨h.1, by rw [h.2]; rfl⟩

/-- C2: for every hostname whose lookup succeeds but no returned address
satisfies the filter predicate, `resolve` fails with the
restricted-destination error (both variants); consequently `resolve` never
returns success wrapping a sequence that yields no addresses (both
variants). -/
theorem c2_all_filtered_restricted_never_empty_success :
    (∀ (r : Hickory.HickoryDnsResolver) (cells : Cells)
       (sysConf : Except String (ResolverConfig × ResolverOpts))
       (lookup : TokioAsyncResolver → String → Except EngineError (List IpAddr))
       (name : String) (sample : Bool) (elapsed : Nat)
       (engine : TokioAsyncResolver) (cell : Option TokioAsyncResolver)
       (ips : List IpAddr),
       getOrTryInit (cells r.state) (fun _ => Hickory.new_resolver r sysConf)
         = (.ok engine, cell) →
       lookup engine name = .ok ips →
       ips.any r.filter = false →
       (Hickory.resolve r cells sysConf lookup name sample elapsed).result
         = .error .restricted) ∧
    (∀ (r : TrustDns.TrustDnsResolver) (cells : Cells)
       (sysConf : Except String (ResolverConfig × ResolverOpts))
       (lookup : TokioAsyncResolver → String → Except EngineError (List IpAddr))
       (name : String)
       (engine : TokioAsyncResolver) (cell : Option TokioAsyncResolver)
       (ips : List IpAddr),
       getOrTryInit (cells r.state) (fun _ => TrustDns.new_resolver sysConf)
         = (.ok engine, cell) →
       lookup engine name = .ok ips →
       ips.any r.filter = false →
       (TrustDns.resolve r cells sysConf lookup name).result
         = .error .restricted) ∧
    (∀ (r : Hickory.HickoryDnsResolver) (cells : Cells)
       (sysConf : Except String (ResolverConfig × ResolverOpts))
       (lookup : TokioAsyncResolver → String → Except EngineError (List IpAddr))
       (name : String) (sample : Bool) (elapsed : Nat) (s : SocketAddrs),
       (Hickory.resolve r cells sysConf lookup name sample elapsed).result
         = .ok s →
       s.drain ≠ []) ∧
    (∀ (r : TrustDns.TrustDnsResolver) (cells : Cells)
       (sysConf : Except String (ResolverConfig × ResolverOpts))
       (lookup : TokioAsyncResolver → String → Except EngineError (List IpAddr))
       (name : String) (s : SocketAddrs),
       (TrustDns.resolve r cells sysConf lookup name).result = .ok s →
       s.drain ≠ []) := by
  refine ⟨?_, ?_, ?_, ?_⟩
  · intro r cells sysConf lookup name sample elapsed engine cell ips
      hinit hlook hany
    simp only [Hickory.resolve, hinit, hlook, anyTrace_fst, hany,
      Bool.false_eq_true, if_false]
  · intro r cells sysConf lookup name engine cell ips hinit hlook hany
    simp only [TrustDns.resolve, hinit, hlook, anyTrace_fst, hany,
      Bool.false_eq_true, if_false]
  · intro r cells sysConf lookup name sample elapsed s h
    rcases hg : getOrTryInit (cells r.state)
        (fun _ => Hickory.new_resolver r sysConf) with ⟨res, cell⟩
    simp only [Hickory.resolve, hg] at h
    cases res with
    | error e => simp at h
    | ok engine =>
      cases hl : lookup engine name with
      | error e => simp [hl] at h
      | ok ips =>
        simp only [hl, anyTrace_fst] at h
        by_cases ha : ips.any r.filter
        · simp only [ha, if_true, Except.ok.injEq] at h
          obtain ⟨ip, hmem, hf⟩ := List.any_eq_true.mp ha
          have hmemd : SocketAddr.new ip 0 ∈ s.drain := by
            rw [← h, SocketAddrs.drain_eq]
            exact List.mem_map_of_mem _ (List.mem_filter.mpr ⟨hmem, hf⟩)
          exact List.ne_nil_of_mem hmemd
        · simp [ha] at h
  · intro r cells sysConf lookup name s h
    rcases hg : getOrTryInit (cells r.state)
        (fun _ => TrustDns.new_resolver sysConf) with ⟨res, cell⟩
    simp only [TrustDns.resolve, hg] at h
    cases res with
    | error e => simp at h
    | ok engine =>
      cases hl : lookup engine name with
      | error e => simp [hl] at h
      | ok ips =>
        simp only [hl, anyTrace_fst] at h
        by_cases ha : ips.any r.filter
        · simp only [ha, if_true, Except.ok.injEq] at h
          obtain ⟨ip, hmem, hf⟩ := List.any_eq_true.mp ha
          have hmemd : SocketAddr.new ip 0 ∈ s.drain := by
            rw [← h, SocketAddrs.drain_eq]
            exact List.mem_map_of_mem _ (List.mem_filter.mpr ⟨hmem, hf⟩)
          exact List.ne_nil_of_mem hmemd
        · simp [ha] at h

/-- Witness for C2, at the spec's scenario: filter rejects loopback, the
engine produced `[127.0.0.1]` only, and both variants fail with the
restricted-destination error; moreover the C1-scenario success drains to a
non-empty list. -/
theorem c2_witness :
    (Hickory.resolve ⟨0, rejectLoopback, none⟩ (fun _ => some sampleEngine)
        (.ok (sampleConfig, sampleOpts)) (fun _ _ => .ok [loopbackIp])
        "example.com" false 0).result = .error .restricted ∧
    (TrustDns.resolve ⟨0, rejectLoopback⟩ (fun _ => some sampleEngine)
        (.ok (sampleConfig, sampleOpts)) (fun _ _ => .ok [loopbackIp])
        "example.com").result = .error .restricted ∧
    SocketAddrs.drain ⟨[loopbackIp, publicIp], rejectLoopback⟩ ≠ [] := by
  refine ⟨?_, ?_, ?_⟩
  · exact c2_all_filtered_restricted_never_empty_success.1
      ⟨0, rejectLoopback, none⟩ (fun _ => some sampleEngine)
      (.ok (sampleConfig, sampleOpts)) (fun _ _ => .ok [loopbackIp])
      "example.com" false 0 sampleEngine (some sampleEngine) [loopbackIp]
      rfl rfl (by decide)
  · exact c2_all_filtered_restricted_never_empty_success.2.1
      ⟨0, rejectLoopback⟩ (fun _ => some sampleEngine)
      (.ok (sampleConfig, sampleOpts)) (fun _ _ => .ok [loopbackIp])
      "example.com" sampleEngine (some sampleEngine) [loopbackIp]
      rfl rfl (by decide)
  · exact c2_all_filtered_restricted_never_empty_success.2.2.1
      ⟨0, rejectLoopback, none⟩ (fun _ => some sampleEngine)
      (.ok (sampleConfig, sampleOpts))
      (fun _ _ => .ok [loopbackIp, publicIp]) "example.com" false 0
      ⟨[loopbackIp, publicIp], rejectLoopback⟩ rfl

/-- Counterexample to C3: `new_resolver` does not override the IP-family
strategy.  With explicit options whose strategy is `ipv4Only`, the hickory
engine is built still carrying `ipv4Only`, not `ipv4AndIpv6`; and the
trust_dns variant does not raise the cache size either: with OS-derived
options whose `cache_size` is 32, the engine keeps 32, not 500000. -/
theorem c3_counterexample_no_strategy_override :
    (Hickory.new_resolver ⟨0, rejectLoopback, some (sampleConfig, sampleOpts)⟩
        (.ok (sampleConfig, sampleOpts))).map (fun en => en.opts.ip_strategy)
      = .ok .ipv4Only ∧
    LookupIpStrategy.ipv4Only ≠ LookupIpStrategy.ipv4AndIpv6 ∧
    (TrustDns.new_resolver (.ok (sampleConfig, sampleOpts))).map
        (fun en => en.opts.cache_size)
      = .ok 32 ∧
    (32 : Nat) ≠ 500000 := by
  exact ⟨rfl, by decide, rfl, by decide⟩

/-- C3 as amended: when `resolve` triggers first-time construction, the
engine is built from the explicit `(ResolverConfig, ResolverOpts)` if one
was supplied (hickory variant only), otherwise from the configuration read
from the operating system's resolver settings; the hickory variant
overwrites only the address-cache capacity to 500,000 entries, leaving the
IP-family strategy (and every other option) as configured, and the
trust_dns variant uses the OS-derived configuration entirely unchanged. -/
theorem c3_amended_engine_construction :
    (∀ (st : Nat) (filter : IpAddr → Bool) (cfg : ResolverConfig)
       (opts : ResolverOpts)
       (sysConf : Except String (ResolverConfig × ResolverOpts)),
       Hickory.new_resolver ⟨st, filter, some (cfg, opts)⟩ sysConf
         = .ok (TokioAsyncResolver.tokio cfg
             { opts with cache_size := 500000 })) ∧
    (∀ (st : Nat) (filter : IpAddr → Bool) (cfg : ResolverConfig)
       (opts : ResolverOpts),
       Hickory.new_resolver ⟨st, filter, none⟩ (.ok (cfg, opts))
         = .ok (TokioAsyncResolver.tokio cfg
             { opts with cache_size := 500000 })) ∧
    (∀ (st : Nat) (filter : IpAddr → Bool) (e : String),
       Hickory.new_resolver ⟨st, filter, none⟩ (.error e)
         = .error ("error reading DNS system conf: " ++ e)) ∧
    (∀ (cfg : ResolverConfig) (opts : ResolverOpts),
       TrustDns.new_resolver (.ok (cfg, opts))
         = .ok (TokioAsyncResolver.tokio cfg opts)) ∧
    (∀ (e : String),
       TrustDns.new_resolver (.error e)
         = .error ("error reading DNS system conf: " ++ e)) := by
  exact ⟨fun _ _ _ _ _ => rfl, fun _ _ _ _ => rfl, fun _ _ _ => rfl,
    fun _ _ => rfl, fun _ => rfl⟩

/-- C4: if the first `resolve` call fails because engine construction fails
(here: reading the system configuration fails), the shared state cell
remains uninitialized, and a subsequent `resolve` call — after the
configuration is fixed — attempts construction again and succeeds; a failed
initialization never permanently wedges the handle. -/
theorem c4_failed_init_retries (r : Hickory.HickoryDnsResolver)
    (cells : Cells)
    (lookup : TokioAsyncResolver → String → Except EngineError (List IpAddr))
    (name : String) (sample : Bool) (elapsed : Nat) (e : String)
    (cfg : ResolverConfig) (opts : ResolverOpts) (ips : List IpAddr)
    (hconfig : r.config = none)
    (hcell : cells r.state = none)
    (hlookup : lookup (TokioAsyncResolver.tokio cfg
        { opts with cache_size := 500000 }) name = .ok ips)
    (hany : ips.any r.filter = true) :
    (Hickory.resolve r cells (.error e) lookup name sample elapsed).result
      = .error (.configError ("error reading DNS system conf: " ++ e)) ∧
    (Hickory.resolve r cells (.error e) lookup name sample elapsed).cells
        r.state = none ∧
    (Hickory.resolve r
        (Hickory.resolve r cells (.error e) lookup name sample elapsed).cells
        (.ok (cfg, opts)) lookup name sample elapsed).result
      = .ok ⟨ips, r.filter⟩ := by
  have hnew1 : Hickory.new_resolver r (.error e)
      = .error ("error reading DNS system conf: " ++ e) := by
    simp only [Hickory.new_resolver, hconfig]
  have hfirst : Hickory.resolve r cells (.error e) lookup name sample elapsed
      = ⟨.error (.configError ("error reading DNS system conf: " ++ e)),
         updateCells cells r.state none, [], []⟩ := by
    simp only [Hickory.resolve, getOrTryInit, hcell, hnew1]
  have hcell2 : (updateCells cells r.state none) r.state = none := by
    simp [updateCells]
  have hnew2 : Hickory.new_resolver r (.ok (cfg, opts))
      = .ok (TokioAsyncResolver.tokio cfg
          { opts with cache_size := 500000 }) := by
    simp only [Hickory.new_resolver, hconfig]
  refine ⟨by rw [hfirst], by rw [hfirst]; exact hcell2, ?_⟩
  rw [hfirst]
  simp only [Hickory.resolve, getOrTryInit, hcell2, hnew2, hlookup,
    anyTrace_fst, hany, if_true]

/-- Witness for C4: a fresh reject-loopback handle whose first call sees an
unreadable system configuration and whose second call sees a good one. -/
theorem c4_witness :
    (Hickory.resolve ⟨0, rejectLoopback, none⟩ (fun _ => none)
        (.error "io error") (fun _ _ => .ok [publicIp]) "example.com"
        false 0).result
      = .error (.configError "error reading DNS system conf: io error") ∧
    (Hickory.resolve ⟨0, rejectLoopback, none⟩ (fun _ => none)
        (.error "io error") (fun _ _ => .ok [publicIp]) "example.com"
        false 0).cells 0 = none ∧
    (Hickory.resolve ⟨0, rejectLoopback, none⟩
        (Hickory.resolve ⟨0, rejectLoopback, none⟩ (fun _ => none)
          (.error "io error") (fun _ _ => .ok [publicIp]) "example.com"
          false 0).cells
        (.ok (sampleConfig, sampleOpts)) (fun _ _ => .ok [publicIp])
        "example.com" false 0).result
      = .ok ⟨[publicIp], rejectLoopback⟩ :=
  c4_failed_init_retries ⟨0, rejectLoopback, none⟩ (fun _ => none)
    (fun _ _ => .ok [publicIp]) "example.com" false 0 "io error"
    sampleConfig sampleOpts [publicIp] rfl rfl rfl (by decide)

/-- C5: if the underlying engine's lookup for a hostname fails, `resolve`
fails by propagating that error as a resolution failure, and the filter
predicate is never evaluated on any address during that call — in both the
hickory and the trust_dns variants. -/
theorem c5_lookup_error_propagated_filter_unevaluated :
    (∀ (r : Hickory.HickoryDnsResolver) (cells : Cells)
       (sysConf : Except String (ResolverConfig × ResolverOpts))
       (lookup : TokioAsyncResolver → String → Except EngineError (List IpAddr))
       (name : String) (sample : Bool) (elapsed : Nat)
       (engine : TokioAsyncResolver) (cell : Option TokioAsyncResolver)
       (e : EngineError),
       getOrTryInit (cells r.state) (fun _ => Hickory.new_resolver r sysConf)
         = (.ok engine, cell) →
       lookup engine name = .error e →
       (Hickory.resolve r cells sysConf lookup name sample elapsed).result
           = .error (.engineError e) ∧
       (Hickory.resolve r cells sysConf lookup name sample
           elapsed).filterTrace = []) ∧
    (∀ (r : TrustDns.TrustDnsResolver) (cells : Cells)
       (sysConf : Except String (ResolverConfig × ResolverOpts))
       (lookup : TokioAsyncResolver → String → Except EngineError (List IpAddr))
       (name : String)
       (engine : TokioAsyncResolver) (cell : Option TokioAsyncResolver)
       (e : EngineError),
       getOrTryInit (cells r.state) (fun _ => TrustDns.new_resolver sysConf)
         = (.ok engine, cell) →
       lookup engine name = .error e →
       (TrustDns.resolve r cells sysConf lookup name).result
           = .error (.engineError e) ∧
       (TrustDns.resolve r cells sysConf lookup name).filterTrace = []) := by
  constructor
  · intro r cells sysConf lookup name sample elapsed engine cell e hinit hlook
    constructor <;> simp only [Hickory.resolve, hinit, hlook]
  · intro r cells sysConf lookup name engine cell e hinit hlook
    constructor <;> simp only [TrustDns.resolve, hinit, hlook]

/-- Witness for C5: an NXDOMAIN-style lookup failure is propagated by both
variants with an empty filter-evaluation trace. -/
theorem c5_witness :
    (Hickory.resolve ⟨0, rejectLoopback, none⟩ (fun _ => some sampleEngine)
        (.ok (sampleConfig, sampleOpts))
        (fun _ _ => .error (.noRecordsFound "example.com"))
        "example.com" false 0).result
      = .error (.engineError (.noRecordsFound "example.com")) ∧
    (Hickory.resolve ⟨0, rejectLoopback, none⟩ (fun _ => some sampleEngine)
        (.ok (sampleConfig, sampleOpts))
        (fun _ _ => .error (.noRecordsFound "example.com"))
        "example.com" false 0).filterTrace = [] ∧
    (TrustDns.resolve ⟨0, rejectLoopback⟩ (fun _ => some sampleEngine)
        (.ok (sampleConfig, sampleOpts))
        (fun _ _ => .error (.noRecordsFound "example.com"))
        "example.com").result
      = .error (.engineError (.noRecordsFound "example.com")) ∧
    (TrustDns.resolve ⟨0, rejectLoopback⟩ (fun _ => some sampleEngine)
        (.ok (sampleConfig, sampleOpts))
        (fun _ _ => .error (.noRecordsFound "example.com"))
        "example.com").filterTrace = [] := by
  have h1 := c5_lookup_error_propagated_filter_unevaluated.1
    ⟨0, rejectLoopback, none⟩ (fun _ => some sampleEngine)
    (.ok (sampleConfig, sampleOpts))
    (fun _ _ => .error (.noRecordsFound "example.com")) "example.com" false 0
    sampleEngine (some sampleEngine) (.noRecordsFound "example.com") rfl rfl
  have h2 := c5_lookup_error_propagated_filter_unevaluated.2
    ⟨0, rejectLoopback⟩ (fun _ => some sampleEngine)
    (.ok (sampleConfig, sampleOpts))
    (fun _ _ => .error (.noRecordsFound "example.com")) "example.com"
    sampleEngine (some sampleEngine) (.noRecordsFound "example.com") rfl rfl
  exact ⟨h1.1, h1.2, h2.1, h2.2⟩

/-- C7: the restricted-destination failure is an error distinct from every
propagated engine-lookup failure (and from every configuration failure), so
a caller of `resolve` can distinguish "host does not exist" from "host
exists but is policy-disallowed" by inspecting the error: under a failing
lookup both variants return `engineError e`, and under an all-filtered
successful lookup both return `restricted`. -/
theorem c7_restricted_error_distinct_from_lookup_error :
    (∀ (e : EngineError),
       ResolveError.engineError e ≠ ResolveError.restricted) ∧
    (∀ (msg : String), ResolveError.configError msg ≠ ResolveError.restricted) ∧
    (∀ (r : Hickory.HickoryDnsResolver) (cells : Cells)
       (sysConf : Except String (ResolverConfig × ResolverOpts))
       (lookup : TokioAsyncResolver → String → Except EngineError (List IpAddr))
       (name : String) (sample : Bool) (elapsed : Nat)
       (engine : TokioAsyncResolver) (cell : Option TokioAsyncResolver)
       (e : EngineError),
       getOrTryInit (cells r.state) (fun _ => Hickory.new_resolver r sysConf)
         = (.ok engine, cell) →
       lookup engine name = .error e →
       (Hickory.resolve r cells sysConf lookup name sample elapsed).result
         = .error (.engineError e)) ∧
    (∀ (r : Hickory.HickoryDnsResolver) (cells : Cells)
       (sysConf : Except String (ResolverConfig × ResolverOpts))
       (lookup : TokioAsyncResolver → String → Except EngineError (List IpAddr))
       (name : String) (sample : Bool) (elapsed : Nat)
       (engine : TokioAsyncResolver) (cell : Option TokioAsyncResolver)
       (ips : List IpAddr),
       getOrTryInit (cells r.state) (fun _ => Hickory.new_resolver r sysConf)
         = (.ok engine, cell) →
       lookup engine name = .ok ips →
       ips.any r.filter = false →
       (Hickory.resolve r cells sysConf lookup name sample elapsed).result
         = .error .restricted) ∧
    (∀ (r : TrustDns.TrustDnsResolver) (cells : Cells)
       (sysConf : Except String (ResolverConfig × ResolverOpts))
       (lookup : TokioAsyncResolver → String → Except EngineError (List IpAddr))
       (name : String)
       (engine : TokioAsyncResolver) (cell : Option TokioAsyncResolver)
       (e : EngineError),
       getOrTryInit (cells r.state) (fun _ => TrustDns.new_resolver sysConf)
         = (.ok engine, cell) →
       lookup engine name = .error e →
       (TrustDns.resolve r cells sysConf lookup name).result
         = .error (.engineError e)) ∧
    (∀ (r : TrustDns.TrustDnsResolver) (cells : Cells)
       (sysConf : Except String (ResolverConfig × ResolverOpts))
       (lookup : TokioAsyncResolver → String → Except EngineError (List IpAddr))
       (name : String)
       (engine : TokioAsyncResolver) (cell : Option TokioAsyncResolver)
       (ips : List IpAddr),
       getOrTryInit (cells r.state) (fun _ => TrustDns.new_resolver sysConf)
         = (.ok engine, cell) →
       lookup engine name = .ok ips →
       ips.any r.filter = false →
       (TrustDns.resolve r cells sysConf lookup name).result
         = .error .restricted) := by
  refine ⟨?_, ?_, ?_, ?_, ?_, ?_⟩
  · intro e h
    cases h
  · intro msg h
    cases h
  · intro r cells sysConf lookup name sample elapsed engine cell e hinit hlook
    simp only [Hickory.resolve, hinit, hlook]
  · intro r cells sysConf lookup name sample elapsed engine cell ips
      hinit hlook hany
    simp only [Hickory.resolve, hinit, hlook, anyTrace_fst, hany,
      Bool.false_eq_true, if_false]
  · intro r cells sysConf lookup name engine cell e hinit hlook
    simp only [TrustDns.resolve, hinit, hlook]
  · intro r cells sysConf lookup name engine cell ips hinit hlook hany
    simp only [TrustDns.resolve, hinit, hlook, anyTrace_fst, hany,
      Bool.false_eq_true, if_false]

/-- Witness for C7: the two failure shapes at concrete inputs, and their
distinctness. -/
theorem c7_witness :
    ResolveError.engineError .timeout ≠ ResolveError.restricted ∧
    (Hickory.resolve ⟨0, rejectLoopback, none⟩ (fun _ => some sampleEngine)
        (.ok (sampleConfig, sampleOpts)) (fun _ _ => .error .timeout)
        "example.org" false 0).result = .error (.engineError .timeout) ∧
    (Hickory.resolve ⟨0, rejectLoopback, none⟩ (fun _ => some sampleEngine)
        (.ok (sampleConfig, sampleOpts)) (fun _ _ => .ok [loopbackIp])
        "example.org" false 0).result = .error .restricted := by
  refine ⟨c7_restricted_error_distinct_from_lookup_error.1 .timeout, ?_, ?_⟩
  · exact c7_restricted_error_distinct_from_lookup_error.2.2.1
      ⟨0, rejectLoopback, none⟩ (fun _ => some sampleEngine)
      (.ok (sampleConfig, sampleOpts)) (fun _ _ => .error .timeout)
      "example.org" false 0 sampleEngine (some sampleEngine) .timeout rfl rfl
  · exact c7_restricted_error_distinct_from_lookup_error.2.2.2.1
      ⟨0, rejectLoopback, none⟩ (fun _ => some sampleEngine)
      (.ok (sampleConfig, sampleOpts)) (fun _ _ => .ok [loopbackIp])
      "example.org" false 0 sampleEngine (some sampleEngine) [loopbackIp]
      rfl rfl (by decide)

/-- C8: the probabilistic slow-lookup logging in the hickory `resolve` is
purely observational — two runs differing only in the random sampling
outcome and in the measured elapsed time return the same result and leave
the shared state cells identical; only the emitted log lines may differ. -/
theorem c8_logging_is_observational (r : Hickory.HickoryDnsResolver)
    (cells : Cells) (sysConf : Except String (ResolverConfig × ResolverOpts))
    (lookup : TokioAsyncResolver → String → Except EngineError (List IpAddr))
    (name : String) (sample₁ sample₂ : Bool) (elapsed₁ elapsed₂ : Nat) :
    (Hickory.resolve r cells sysConf lookup name sample₁ elapsed₁).result
      = (Hickory.resolve r cells sysConf lookup name sample₂ elapsed₂).result ∧
    (Hickory.resolve r cells sysConf lookup name sample₁ elapsed₁).cells
      = (Hickory.resolve r cells sysConf lookup name sample₂ elapsed₂).cells ∧
    (Hickory.resolve r cells sysConf lookup name sample₁
        elapsed₁).filterTrace
      = (Hickory.resolve r cells sysConf lookup name sample₂
        elapsed₂).filterTrace := by
  rcases hg : getOrTryInit (cells r.state)
      (fun _ => Hickory.new_resolver r sysConf) with ⟨res, cell⟩
  cases res with
  | error e => simp [Hickory.resolve, hg]
  | ok engine =>
    cases hl : lookup engine name with
    | error e => simp [Hickory.resolve, hg, hl]
    | ok ips => simp [Hickory.resolve, hg, hl]

/-- C9: for every explicitly supplied `(ResolverConfig, ResolverOpts)`
installed via `with_config`, the hickory `new_resolver` builds the engine
with the `cache_size` field overwritten to 500,000 — discarding the
caller's supplied `cache_size` — while every other supplied option and the
supplied configuration are used unchanged. -/
theorem c9_cache_size_overwritten_others_kept
    (r : Hickory.HickoryDnsResolver) (cfg : ResolverConfig)
    (opts : ResolverOpts)
    (sysConf : Except String (ResolverConfig × ResolverOpts)) :
    Hickory.new_resolver (r.with_config cfg opts) sysConf
      = .ok (TokioAsyncResolver.tokio cfg
          { opts with cache_size := 500000 }) ∧
    ({ opts with cache_size := 500000 } : ResolverOpts).cache_size
      = 500000 ∧
    ({ opts with cache_size := 500000 } : ResolverOpts).ndots = opts.ndots ∧
    ({ opts with cache_size := 500000 } : ResolverOpts).timeout
      = opts.timeout ∧
    ({ opts with cache_size := 500000 } : ResolverOpts).attempts
      = opts.attempts ∧
    ({ opts with cache_size := 500000 } : ResolverOpts).ip_strategy
      = opts.ip_strategy ∧
    ({ opts with cache_size := 500000 } : ResolverOpts).use_hosts_file
      = opts.use_hosts_file ∧
    ({ opts with cache_size := 500000 } : ResolverOpts).num_concurrent_reqs
      = opts.num_concurrent_reqs := by
  exact ⟨rfl, rfl, rfl, rfl, rfl, rfl, rfl, rfl⟩

/-- C10: `with_config` changes only the optional explicit-configuration
field — the returned handle keeps the very same shared state cell (so any
heap of cells yields the same engine through either handle) and the same
filter predicate, and its `config` field becomes the supplied pair. -/
theorem c10_with_config_frame (r : Hickory.HickoryDnsResolver)
    (cfg : ResolverConfig) (opts : ResolverOpts) (cells : Cells) :
    (r.with_config cfg opts).state = r.state ∧
    (r.with_config cfg opts).filter = r.filter ∧
    (r.with_config cfg opts).config = some (cfg, opts) ∧
    cells (r.with_config cfg opts).state = cells r.state := by
  exact ⟨rfl, rfl, rfl, rfl⟩
